import Mathlib

/-
A shallow embedding of the CoC proof-object kernel of this repository
(src/Rem/coc/term.py, context.py, environment.py, typing_rule.py,
conversion_rule.py, and the earlier snapshot src/Rem/core/conversion_rule.py),
together with theorems settling the specification claims about it.

Modelling conventions:
- Python strings used as variable names are modelled by `Name`; the names
  probed by `Var.fresh_var` are the strings "#0", "#1", ..., which live in a
  separate lexical family from ordinary identifiers, modelled by `Name.hash`.
- The process-wide mutable counter `Var.count` is threaded explicitly: every
  function that can call `fresh_var` takes the current counter and returns the
  updated one.
- Each proof-object class is represented by the record of its conclusion data,
  because every rule constructor in the source consults its sub-proofs only
  through their conclusion properties.  A rule constructor becomes a function
  returning `Except RemError`, mirroring the `raise`-on-failure discipline.
- `while` loops are embedded with an explicit fuel argument large enough to be
  proved sufficient (see `probe`).
-/

/-- Variable names.  `str s` is an ordinary identifier; `hash n` is the
generated name written `f"#{n}"` in `Var.fresh_var`. -/
inductive Name where
  | str (s : String)
  | hash (n : Nat)
deriving DecidableEq

/-- Terms of the calculus, one constructor per concrete class of
src/Rem/coc/term.py: the sorts SProp, Prop, Set, Type(i), then Var, Const,
Prod, Abstract, Apply and Let_in. -/
inductive Term where
  | sProp
  | prop
  | set
  | type_i (i : Int)
  | var (x : Name)
  | const (c : String)
  | prod (x : Name) (T : Term) (U : Term)
  | abstract (x : Name) (T : Term) (u : Term)
  | app (t : Term) (u : Term)
  | letIn (x : Name) (t : Term) (T : Term) (u : Term)
deriving DecidableEq

/-- `Term.substitute(self, x, t)` of term.py, variant by variant.  Binder
nodes stop when their own bound variable equals the substituted one.  Note the
`Abstract` case: term.py line 450 builds and returns a `Prod` node, not a new
`Abstract`. -/
def substitute : Term → Name → Term → Term
  | .sProp, _, _ => .sProp
  | .prop, _, _ => .prop
  | .set, _, _ => .set
  | .type_i i, _, _ => .type_i i
  | .var y, x, t => if y = x then t else .var y
  | .const c, _, _ => .const c
  | .prod y T U, x, t =>
      if x ≠ y then .prod y (substitute T x t) (substitute U x t) else .prod y T U
  | .abstract y T u, x, t =>
      if x ≠ y then .prod y (substitute T x t) (substitute u x t) else .abstract y T u
  | .app f u, x, t => .app (substitute f x t) (substitute u x t)
  | .letIn y a T u, x, t =>
      if x ≠ y then .letIn y (substitute a x t) (substitute T x t) (substitute u x t)
      else .letIn y a T u

/-- `Term.all_var` as a list of names (the source builds a Python set; only
membership is ever used). -/
def all_var : Term → List Name
  | .sProp | .prop | .set | .type_i _ | .const _ => []
  | .var x => [x]
  | .prod x T U => all_var T ++ all_var U ++ [x]
  | .abstract x T u => all_var T ++ all_var u ++ [x]
  | .app t u => all_var t ++ all_var u
  | .letIn x t T u => all_var t ++ all_var T ++ all_var u ++ [x]

/-- The union of `all_var` over a tuple of terms, as built at the start of
`Var.fresh_var`. -/
def all_var_union (ts : List Term) : List Name :=
  ts.foldr (fun t r => all_var t ++ r) []

/-- The while loop of `Var.fresh_var`: starting from counter `c`, advance the
counter while the probed name `#c` occurs in the collected variable set.  The
loop is embedded with a fuel argument; `fresh_var` supplies fuel
`s.length + 1`, which `probe_exists_not_mem` shows is always enough. -/
def probe (s : List Name) : Nat → Nat → Nat
  | 0, c => c
  | fuel + 1, c => if Name.hash c ∈ s then probe s fuel (c + 1) else c

/-- `Var.fresh_var(terms)` with the class-level counter `Var.count` made
explicit.  Returns the fresh name together with the value of `Var.count` after
the call; the loop leaves the counter at the index of the returned name (the
final `Var.count += 1` happens only on a collision, before re-probing). -/
def fresh_var (ts : List Term) (count : Nat) : Name × Nat :=
  let s := all_var_union ts
  let k := probe s (s.length + 1) count
  (Name.hash k, k)

/-- `BoundTerm.replace_bound(self, var)` for the three binder classes; other
variants have no implementation in the source and are returned unchanged. -/
def replace_bound : Term → Name → Term
  | .prod x T U, v => .prod v (substitute T x (.var v)) (substitute U x (.var v))
  | .abstract x T u, v => .abstract v (substitute T x (.var v)) (substitute u x (.var v))
  | .letIn x t T u, v =>
      .letIn v (substitute t x (.var v)) (substitute T x (.var v)) (substitute u x (.var v))
  | t, _ => t

/-- Node count of a term, used as fuel for `alpha_aux`. -/
def tsize : Term → Nat
  | .sProp | .prop | .set | .type_i _ | .var _ | .const _ => 1
  | .prod _ T U => 1 + tsize T + tsize U
  | .abstract _ T u => 1 + tsize T + tsize u
  | .app t u => 1 + tsize t + tsize u
  | .letIn _ t T u => 1 + tsize t + tsize T + tsize u

/-- `Term.alpha_convertible` with the counter threaded and an explicit fuel.
Binder cases draw one fresh variable over both terms and recurse on the
components of `replace_bound`; `and` short-circuits, so a failed left conjunct
stops the chain with the counter state reached so far.  The `Let_in` case
mirrors term.py line 566 exactly: its third recursion compares the original
`self.u` (not the renamed `self_rep.u`) against the renamed `other_rep.u`. -/
def alpha_aux : Nat → Nat → Term → Term → Bool × Nat
  | 0, c, _, _ => (false, c)
  | fuel + 1, c, a, b =>
    match a, b with
    | .sProp, _ | .prop, _ | .set, _ | .type_i _, _ => (a == b, c)
    | .var _, _ => (a == b, c)
    | .const _, _ => (a == b, c)
    | .prod x T U, .prod y T2 U2 =>
      let p := fresh_var [a, b] c
      let r1 := alpha_aux fuel p.2 (substitute T x (.var p.1)) (substitute T2 y (.var p.1))
      if r1.1 then
        alpha_aux fuel r1.2 (substitute U x (.var p.1)) (substitute U2 y (.var p.1))
      else (false, r1.2)
    | .abstract x T u, .abstract y T2 u2 =>
      let p := fresh_var [a, b] c
      let r1 := alpha_aux fuel p.2 (substitute T x (.var p.1)) (substitute T2 y (.var p.1))
      if r1.1 then
        alpha_aux fuel r1.2 (substitute u x (.var p.1)) (substitute u2 y (.var p.1))
      else (false, r1.2)
    | .app t u, .app t2 u2 =>
      let r1 := alpha_aux fuel c t t2
      if r1.1 then alpha_aux fuel r1.2 u u2 else (false, r1.2)
    | .letIn x t T u, .letIn y t2 T2 u2 =>
      let p := fresh_var [a, b] c
      let r1 := alpha_aux fuel p.2 (substitute t x (.var p.1)) (substitute t2 y (.var p.1))
      if r1.1 then
        let r2 := alpha_aux fuel r1.2 (substitute T x (.var p.1)) (substitute T2 y (.var p.1))
        if r2.1 then
          alpha_aux fuel r2.2 u (substitute u2 y (.var p.1))
        else (false, r2.2)
      else (false, r1.2)
    | _, _ => (false, c)

/-- `a.alpha_convertible(b)` at counter state `count`; returns the Boolean
answer and the updated counter. -/
def alpha_convertible (count : Nat) (a b : Term) : Bool × Nat :=
  alpha_aux (tsize a) count a b

/-- Local declarations (src/Rem/coc/context.py): `LocalTyping(x, T)` and
`LocalDef(x, t, T)`.  Equality in the source is structural and per-variant. -/
inductive LocalDec where
  | typing (x : Name) (T : Term)
  | defn (x : Name) (t : Term) (T : Term)
deriving DecidableEq

/-- The `x` property shared by both local declaration classes. -/
def LocalDec.x : LocalDec → Name
  | .typing a _ => a
  | .defn a _ _ => a

/-- The `T` property shared by both local declaration classes. -/
def LocalDec.T : LocalDec → Term
  | .typing _ b => b
  | .defn _ _ b => b

/-- A `Context` is the tuple of its local declarations; `push` appends on the
right. -/
abbrev Context := List LocalDec

/-- Global declarations (src/Rem/coc/environment.py). -/
inductive GlobalDec where
  | typing (c : String) (T : Term)
  | defn (c : String) (t : Term) (T : Term)
deriving DecidableEq

/-- An `Environment` is the tuple of its global declarations. -/
abbrev Environment := List GlobalDec

/-- The errors raised by the kernel, by kind: `Rem_type_check` failures,
`Rem_consistency_check` failures, `Rem_other_check` failures, popping an empty
context, and the `RemTerm.__new__` error raised when a class decorated only
with `Rem_term` (not `concrete_Rem_term`) is instantiated (rem.py line 64). -/
inductive RemError where
  | typeError (term : String)
  | inconsistent (term : String)
  | check (reason : String)
  | emptyPop
  | cannotInstantiateAbstract
deriving DecidableEq

/-- `Rem_consistency_check(a, b, term)`: raises an inconsistency error unless
`a == b`. -/
def consistency {α : Type} [DecidableEq α] (a b : α) (term : String) :
    Except RemError Unit :=
  if a = b then .ok () else .error (.inconsistent term)

/-- `Rem_other_check(expr, reason)`: raises unless `expr` holds. -/
def other_check (expr : Bool) (reason : String) : Except RemError Unit :=
  if expr then .ok () else .error (.check reason)

/-- `Context.pop`: fails on the empty context, otherwise splits off the last
declaration. -/
def popCtx : Context → Except RemError (Context × LocalDec)
  | [] => .error .emptyPop
  | [d] => .ok ([], d)
  | d :: e :: rest => do
    let (g, last) ← popCtx (e :: rest)
    .ok (d :: g, last)

/-- Conclusion data of a `Rem_WF` proof object: `WF(E)[Γ]`.  Every rule
constructor in the source consults sub-proofs only through these conclusion
properties, so a proof object is represented by its conclusion. -/
structure Rem_WF where
  E : Environment
  Gamma : Context
deriving DecidableEq

/-- Conclusion data of a `Rem_WT` proof object: `E[Γ] ⊢ t : T`. -/
structure Rem_WT where
  E : Environment
  Gamma : Context
  t : Term
  T : Term
deriving DecidableEq

/-- Conclusion data of a `Rem_reduction` proof object: `E[Γ] ⊢ t1 ▷ t2`. -/
structure Rem_reduction where
  E : Environment
  Gamma : Context
  t1 : Term
  t2 : Term
deriving DecidableEq

/-- Conclusion data of a `Rem_subtyping` proof object: `E[Γ] ⊢ t1 ≤ t2`. -/
structure Rem_subtyping where
  E : Environment
  Gamma : Context
  t1 : Term
  t2 : Term
deriving DecidableEq

/-- Data of a `Rem_IsSort` proof object: the sort `s`. -/
structure IsSortP where
  s : Term
deriving DecidableEq

/-- Data of a `Rem_Cont_Not_Contain_Var` proof object. -/
structure NotContainVarP where
  x : Name
  Gamma : Context
deriving DecidableEq

/-- Data of a `Rem_Cont_Contain_Typing` proof object (`x_typing` split into
its two fields). -/
structure ContainTypingP where
  x : Name
  T : Term
  Gamma : Context
deriving DecidableEq

/-- Data of a `Rem_Cont_Contain_Def` proof object (`x_def` split into its
three fields). -/
structure ContainDefP where
  x : Name
  t : Term
  T : Term
  Gamma : Context
deriving DecidableEq

/-- Data of a `Rem_eta_conversion` proof object, through the four properties
(`E`, `Gamma`, `t`, `lam`) it exposes to `Rem_convertible`. -/
structure EtaP where
  E : Environment
  Gamma : Context
  t : Term
  lam : Term
deriving DecidableEq

/-- A `Rem_convertible` proof object stores its two reduction sub-proofs and
exposes its conclusion through the properties below. -/
structure ConvertibleP where
  red1 : Rem_reduction
  red2 : Rem_reduction
deriving DecidableEq

/-- `Rem_convertible.E` (conversion_rule.py line 438). -/
def ConvertibleP.E (cv : ConvertibleP) : Environment := cv.red1.E

/-- `Rem_convertible.Gamma` (conversion_rule.py line 442). -/
def ConvertibleP.Gamma (cv : ConvertibleP) : Context := cv.red1.Gamma

/-- `Rem_convertible.t1` (conversion_rule.py line 446): `red1.t1`. -/
def ConvertibleP.t1 (cv : ConvertibleP) : Term := cv.red1.t1

/-- `Rem_convertible.t2` (conversion_rule.py line 450): the source returns
`self.__red1.t2`. -/
def ConvertibleP.t2 (cv : ConvertibleP) : Term := cv.red1.t2

/-- Is the term one of the four sort variants (the `Sort` superclass)? -/
def isSort : Term → Bool
  | .sProp | .prop | .set | .type_i _ => true
  | _ => false

/-- Is the term the `SProp` sort? -/
def isSProp : Term → Bool
  | .sProp => true
  | _ => false

/-- Is the term a `Type_i` universe? -/
def isTypeI : Term → Bool
  | .type_i _ => true
  | _ => false

/-- `Rem_IsSort(s)`: the type check `s : Sort`. -/
def Rem_IsSort (s : Term) : Except RemError IsSortP :=
  if isSort s then .ok ⟨s⟩ else .error (.typeError "s")

/-- `Rem_Cont_Not_Contain_Var(x, Gamma)`: succeeds iff no declaration of the
context binds `x`. -/
def Rem_Cont_Not_Contain_Var (x : Name) (Gamma : Context) :
    Except RemError NotContainVarP :=
  if Gamma.all (fun d => d.x != x) then .ok ⟨x, Gamma⟩
  else .error (.check "the variable is contained in the context")

/-- `Rem_Cont_Contain_Typing(x_typing, Gamma)`: a `LocalTyping` matches
exactly and a `LocalDef` matches on its `x` and `T` fields. -/
def Rem_Cont_Contain_Typing (x : Name) (T : Term) (Gamma : Context) :
    Except RemError ContainTypingP :=
  if Gamma.any (fun d =>
      match d with
      | .typing a b => a == x && b == T
      | .defn a _ b => a == x && b == T) then .ok ⟨x, T, Gamma⟩
  else .error (.check "the typing is not contained in the context")

/-- `Rem_Cont_Contain_Def(x_def, Gamma)`: membership of the exact `LocalDef`
in the context tuple. -/
def Rem_Cont_Contain_Def (x : Name) (t T : Term) (Gamma : Context) :
    Except RemError ContainDefP :=
  if LocalDec.defn x t T ∈ Gamma then .ok ⟨x, t, T, Gamma⟩
  else .error (.check "the definition is not contained in the context")

/-- `Rem_W_Empty`: concludes `WF([])[]` with no premises. -/
def Rem_W_Empty : Rem_WF := ⟨[], []⟩

/-- `Rem_W_Local_Assum(wt, s_sort, x_notin_Gamma)`: from `E[Γ] ⊢ T : s`,
`s ∈ S` and `x ∉ Γ`, concludes `WF(E)[Γ::(x:T)]` after checking `s` and `Γ`
consistency. -/
def Rem_W_Local_Assum (wt : Rem_WT) (s_sort : IsSortP) (x_notin_Gamma : NotContainVarP) :
    Except RemError Rem_WF := do
  consistency wt.T s_sort.s "s"
  consistency wt.Gamma x_notin_Gamma.Gamma "Gamma"
  .ok ⟨wt.E, x_notin_Gamma.Gamma ++ [.typing x_notin_Gamma.x wt.t]⟩

/-- `Rem_W_Local_Def(wt, x_notin_Gamma)`: from `E[Γ] ⊢ t : T` and `x ∉ Γ`,
concludes `WF(E)[Γ::(x:=t:T)]`. -/
def Rem_W_Local_Def (wt : Rem_WT) (x_notin_Gamma : NotContainVarP) :
    Except RemError Rem_WF := do
  consistency wt.Gamma x_notin_Gamma.Gamma "Gamma"
  .ok ⟨wt.E, x_notin_Gamma.Gamma ++ [.defn x_notin_Gamma.x wt.t wt.T]⟩

/-- `Rem_Ax_SProp(wf)`: concludes `E[Γ] ⊢ SProp : Type(1)`. -/
def Rem_Ax_SProp (wf : Rem_WF) : Rem_WT := ⟨wf.E, wf.Gamma, .sProp, .type_i 1⟩

/-- `Rem_Ax_Prop(wf)`: concludes `E[Γ] ⊢ Prop : Type(1)`. -/
def Rem_Ax_Prop (wf : Rem_WF) : Rem_WT := ⟨wf.E, wf.Gamma, .prop, .type_i 1⟩

/-- `Rem_Ax_Set(wf)`: concludes `E[Γ] ⊢ Set : Type(1)`. -/
def Rem_Ax_Set (wf : Rem_WF) : Rem_WT := ⟨wf.E, wf.Gamma, .set, .type_i 1⟩

/-- `Rem_Var(wf, x_dec_in_Gamma)`: from `WF(E)[Γ]` and `(x : T) ∈ Γ`,
concludes `E[Γ] ⊢ x : T` after checking `Γ` consistency. -/
def Rem_Var (wf : Rem_WF) (x_dec_in_Gamma : ContainTypingP) :
    Except RemError Rem_WT := do
  consistency wf.Gamma x_dec_in_Gamma.Gamma "Gamma"
  .ok ⟨wf.E, wf.Gamma, .var x_dec_in_Gamma.x, x_dec_in_Gamma.T⟩

/-- The sort gate of `Rem_Prod_Set`: `isinstance` against `SProp`, `Prop` and
`Set`. -/
def prod_set_sort_ok : Term → Bool
  | .sProp | .prop | .set => true
  | _ => false

/-- `Rem_Prod_Set(wt_outer, s_sort, wt_inner)`: from `E[Γ] ⊢ T : s` with
`s ∈ {SProp, Prop, Set}` and `E[Γ::(x:T)] ⊢ U : Set`, concludes
`E[Γ] ⊢ ∀x:T, U : Set`, in the check order of the source. -/
def Rem_Prod_Set (wt_outer : Rem_WT) (s_sort : IsSortP) (wt_inner : Rem_WT) :
    Except RemError Rem_WT := do
  other_check (prod_set_sort_ok s_sort.s) "s in SProp Prop Set not satisfied"
  consistency wt_outer.T s_sort.s "s"
  consistency wt_outer.E wt_inner.E "E"
  let (Gamma_pre, dec) ← popCtx wt_inner.Gamma
  consistency wt_outer.Gamma Gamma_pre "Gamma"
  consistency wt_outer.t dec.T "T"
  consistency wt_inner.T Term.set "Set"
  .ok ⟨wt_outer.E, wt_outer.Gamma, .prod dec.x dec.T wt_inner.t, .set⟩

/-- The second disjunct of the sort gate of `Rem_Prod_Type`.  In
typing_rule.py the name `Type` resolves to `typing.Type`, imported in term.py
line 4 and re-exported by the star imports, so `isinstance(s_sort.s, Type)`
asks whether the sort object is itself a Python class; a term instance never
is, and the test is constantly false. -/
def isinstance_typing_Type (s : Term) : Bool := false

/-- `Rem_Prod_Type(wt_outer, s_sort, wt_inner)`: the rule documented as
requiring `s ∈ {SProp, Type(i)}`; its gate is
`isinstance(s, SProp) or isinstance(s, Type)` with `Type = typing.Type`. -/
def Rem_Prod_Type (wt_outer : Rem_WT) (s_sort : IsSortP) (wt_inner : Rem_WT) :
    Except RemError Rem_WT := do
  other_check (isSProp s_sort.s || isinstance_typing_Type s_sort.s)
    "s in SProp Type(i) not satisfied"
  consistency wt_outer.T s_sort.s "s"
  consistency wt_outer.E wt_inner.E "E"
  let (Gamma_pre, dec) ← popCtx wt_inner.Gamma
  consistency wt_outer.Gamma Gamma_pre "Gamma"
  consistency wt_outer.t dec.T "T"
  other_check (isTypeI wt_inner.T) "Type(i)"
  .ok ⟨wt_outer.E, wt_outer.Gamma, .prod dec.x dec.T wt_inner.t, wt_inner.T⟩

/-- `Rem_Lam(wt_outer, wt_inner)`: from `E[Γ] ⊢ ∀x:T, U : s` and
`E[Γ::(x:T)] ⊢ t : U`, concludes `E[Γ] ⊢ λx:T.t : ∀x:T, U`. -/
def Rem_Lam (wt_outer : Rem_WT) (wt_inner : Rem_WT) : Except RemError Rem_WT := do
  match wt_outer.t with
  | .prod px pT pU => do
    let (Gamma_pre, dec) ← popCtx wt_inner.Gamma
    consistency wt_outer.E wt_inner.E "E"
    consistency wt_outer.Gamma Gamma_pre "Gamma"
    consistency px dec.x "x"
    consistency pT dec.T "T"
    consistency pU wt_inner.T "U"
    .ok ⟨wt_outer.E, wt_outer.Gamma, .abstract dec.x dec.T wt_inner.t,
      .prod dec.x dec.T wt_inner.T⟩
  | _ => .error (.typeError "forall x:T, U")

/-- `Rem_App(wt_t, wt_u)`: from `E[Γ] ⊢ t : ∀x:U, T` and `E[Γ] ⊢ u : U`,
concludes `E[Γ] ⊢ (t u) : T{x/u}`. -/
def Rem_App (wt_t : Rem_WT) (wt_u : Rem_WT) : Except RemError Rem_WT := do
  match wt_t.T with
  | .prod px pU pT => do
    consistency wt_t.E wt_u.E "E"
    consistency wt_t.Gamma wt_u.Gamma "Gamma"
    consistency pU wt_u.T "U"
    .ok ⟨wt_t.E, wt_t.Gamma, .app wt_t.t wt_u.t, substitute pT px wt_u.t⟩
  | _ => .error (.typeError "forall x:U, T")

/-- `Rem_beta_reduction(E, Gamma, t1)` (src/Rem/coc/conversion_rule.py):
takes only the redex; the target of the conclusion is computed by the
constructor itself as `t1.t.u.substitute(t1.t.x, t1.u)`. -/
def Rem_beta_reduction (E : Environment) (Gamma : Context) (t1 : Term) :
    Except RemError Rem_reduction :=
  match t1 with
  | .app (.abstract x _ body) u => .ok ⟨E, Gamma, t1, substitute body x u⟩
  | .app _ _ => .error (.typeError "lambda x:T.t")
  | _ => .error (.typeError "(lambda x:T.t) u")

/-- `MP_beta_reduction(E, Gamma, t1, t2)` (src/Rem/core/conversion_rule.py):
the caller supplies the target `t2`; the validation computes
`t2_sub = t2.substitute(t1.t.x, t1.u)` - substituting into the candidate
itself - and accepts iff `t2_sub.alpha_convertible(t2)`. -/
def MP_beta_reduction (E : Environment) (Gamma : Context) (t1 t2 : Term)
    (count : Nat) : Except RemError Rem_reduction :=
  match t1 with
  | .app (.abstract x _ body) u =>
    let t2_sub := substitute t2 x u
    if (alpha_convertible count t2_sub t2).1 then .ok ⟨E, Gamma, t1, t2⟩
    else .error (.check "the substitution result is not alpha-convertible to t2")
  | .app _ _ => .error (.typeError "lambda x:T.t")
  | _ => .error (.typeError "(lambda x:T.t) u")

/-- Python equality between a `Context` and a `Rem_Cont_Contain_Def` proof
object.  `Context.__eq__` (context.py line 117) returns `False` whenever the
other operand is not a `Context`, and a proof object never is. -/
def context_eq_contain_def_proof (Gamma : Context) (p : ContainDefP) : Bool := false

/-- `Rem_delta_reduction(wf, x_in_Gamma)`: the consistency check at
conversion_rule.py line 166 compares `wf.Gamma` with the proof object
`x_in_Gamma` itself (not with `x_in_Gamma.Gamma`); on success the conclusion
would be `E[Γ] ⊢ x ▷ t`. -/
def Rem_delta_reduction (wf : Rem_WF) (x_in_Gamma : ContainDefP) :
    Except RemError Rem_reduction :=
  if context_eq_contain_def_proof wf.Gamma x_in_Gamma then
    .ok ⟨wf.E, wf.Gamma, .var x_in_Gamma.x, x_in_Gamma.t⟩
  else .error (.inconsistent "Gamma")

/-- `Rem_convertible(red1, red2, u_eq_proof)`: after `E` and `Γ` consistency,
the `None` branch checks `red1.t2.alpha_convertible(red2.t2)` and the eta
branch matches `(red1.t2, red2.t2)` against `(proof.t, proof.lam)` in either
order.  The constructed object stores the two reductions. -/
def Rem_convertible (red1 red2 : Rem_reduction) (u_eq_proof : Option EtaP)
    (count : Nat) : Except RemError ConvertibleP := do
  consistency red1.E red2.E "E"
  consistency red1.Gamma red2.Gamma "Gamma"
  match u_eq_proof with
  | none => do
    other_check (alpha_convertible count red1.t2 red2.t2).1
      "not alpha-convertible"
    .ok ⟨red1, red2⟩
  | some p => do
    consistency p.E red1.E "E"
    consistency p.Gamma red1.Gamma "Gamma"
    other_check ((red1.t2 == p.t && red2.t2 == p.lam) ||
        (red1.t2 == p.lam && red2.t2 == p.t)) "inconsistent eta-conversion proof"
    .ok ⟨red1, red2⟩

/-- `Rem_subtyping_universe(E, Gamma, i, j)`: checks `0 < i <= j` and
concludes `E[Γ] ⊢ Type(i) ≤ Type(j)`. -/
def Rem_subtyping_universe (E : Environment) (Gamma : Context) (i j : Int) :
    Except RemError Rem_subtyping :=
  if 0 < i ∧ i ≤ j then .ok ⟨E, Gamma, .type_i i, .type_i j⟩
  else .error (.check "the universe number condition 0 < i <= j is not satisfied")

/-- The class `Rem_subtyping_trans` carries the decorator `Rem_term`, not
`concrete_Rem_term` (conversion_rule.py line 513), so it inherits
`RemTerm.__new__`, which raises before `__init__` can run (rem.py line 64). -/
def Rem_subtyping_trans_is_concrete : Bool := false

/-- The `__init__` body of `Rem_subtyping_trans`: consistency of `E`, `Γ` and
the intermediate term, then the conclusion `E[Γ] ⊢ t1 ≤ t3`. -/
def Rem_subtyping_trans_init (subtype1 subtype2 : Rem_subtyping) :
    Except RemError Rem_subtyping := do
  consistency subtype1.E subtype2.E "E"
  consistency subtype1.Gamma subtype2.Gamma "Gamma"
  consistency subtype1.t2 subtype2.t1 "t2"
  .ok ⟨subtype1.E, subtype1.Gamma, subtype1.t1, subtype2.t2⟩

/-- Instantiating `Rem_subtyping_trans(subtype1, subtype2)`: `__new__` runs
before `__init__`, and for a non-concrete Rem term it raises. -/
def Rem_subtyping_trans (subtype1 subtype2 : Rem_subtyping) :
    Except RemError Rem_subtyping :=
  if Rem_subtyping_trans_is_concrete then Rem_subtyping_trans_init subtype1 subtype2
  else .error .cannotInstantiateAbstract

/-- Is the construction successful? -/
def is_ok {ε α : Type} : Except ε α → Bool
  | .ok _ => true
  | .error _ => false

/-- The probing loop never moves the counter backwards. -/
lemma probe_ge (s : List Name) : ∀ fuel c, c ≤ probe s fuel c := by
  intro fuel
  induction fuel with
  | zero => intro c; simp [probe]
  | succ n ih =>
    intro c
    by_cases hc : Name.hash c ∈ s
    · rw [probe, if_pos hc]
      exact le_trans (Nat.le_succ c) (ih (c + 1))
    · rw [probe, if_neg hc]

/-- Every index the probing loop steps over carries a colliding name. -/
lemma probe_mem_of_lt (s : List Name) :
    ∀ fuel c k, c ≤ k → k < probe s fuel c → Name.hash k ∈ s := by
  intro fuel
  induction fuel with
  | zero =>
    intro c k hck hk
    rw [probe] at hk
    omega
  | succ n ih =>
    intro c k hck hk
    by_cases hc : Name.hash c ∈ s
    · rw [probe, if_pos hc] at hk
      rcases Nat.eq_or_lt_of_le hck with h | h
      · exact h ▸ hc
      · exact ih (c + 1) k h hk
    · rw [probe, if_neg hc] at hk
      omega

/-- If some probed index within the fuel budget is collision-free, the loop
stops at a collision-free name. -/
lemma probe_not_mem (s : List Name) :
    ∀ fuel c, (∃ j, j < fuel ∧ Name.hash (c + j) ∉ s) →
      Name.hash (probe s fuel c) ∉ s := by
  intro fuel
  induction fuel with
  | zero =>
    intro c h
    obtain ⟨j, hj, _⟩ := h
    omega
  | succ n ih =>
    intro c h
    by_cases hc : Name.hash c ∈ s
    · rw [probe, if_pos hc]
      apply ih
      obtain ⟨j, hj, hmem⟩ := h
      cases j with
      | zero => simp at hmem; exact absurd hc hmem
      | succ j2 =>
        refine ⟨j2, by omega, ?_⟩
        have harith : c + 1 + j2 = c + (j2 + 1) := by omega
        rw [harith]
        exact hmem
    · rw [probe, if_neg hc]
      exact hc

/-- Pigeonhole: among `s.length + 1` consecutive probed names, at least one
does not occur in `s`, because generated names at distinct indices are
distinct. -/
lemma probe_exists_not_mem (s : List Name) (c : Nat) :
    ∃ j, j < s.length + 1 ∧ Name.hash (c + j) ∉ s := by
  by_contra h
  push_neg at h
  have hinj : Set.InjOn (fun j => Name.hash (c + j)) ↑(Finset.range (s.length + 1)) := by
    intro a _ b _ hab
    simp only [Name.hash.injEq] at hab
    omega
  have hsub : (Finset.range (s.length + 1)).image (fun j => Name.hash (c + j)) ⊆
      s.toFinset := by
    intro n hn
    rw [Finset.mem_image] at hn
    obtain ⟨j, hj, rfl⟩ := hn
    rw [Finset.mem_range] at hj
    rw [List.mem_toFinset]
    exact h j hj
  have hcard := Finset.card_le_card hsub
  rw [Finset.card_image_of_injOn hinj, Finset.card_range] at hcard
  have hlen := s.toFinset_card_le
  omega

/-- C1 (counterexample): the end-to-end scenario breaks at the Prod-Set step.
Ax-Set over `WF([])[x:Set]` concludes `Set : Type(1)`, never `Set : Set`, and
`Rem_Prod_Set` applied to the Ax-Set legs of the scenario raises instead of
establishing `∀x:Set, Set : Set`. -/
theorem C1_end_to_end_counterexample :
    Rem_Ax_Set ⟨[], [.typing (.str "x") .set]⟩
      = ⟨[], [.typing (.str "x") .set], .set, .type_i 1⟩ ∧
    ((Rem_Ax_Set ⟨[], [.typing (.str "x") .set]⟩).T == Term.set) = false ∧
    Rem_Prod_Set (Rem_Ax_Set Rem_W_Empty) ⟨.type_i 1⟩
        (Rem_Ax_Set ⟨[], [.typing (.str "x") .set]⟩)
      = .error (.check "s in SProp Prop Set not satisfied") :=
  ⟨rfl, rfl, rfl⟩

/-- C1 (amended): starting from W-Empty, W-Local-Assum (with the Ax-Set and
NotContainVar legs) yields `WF([])[x:Set]` and Var yields `[x:Set] ⊢ x : Set`;
but the Prod-Set step fails, because the inner Ax-Set proof concludes
`Set : Type(1)` rather than the required `Set : Set`; and if a well-typedness
judgment `λx:Set.x : ∀x:Set, Set` is supplied, App with any `a : Set` yields
`(λx:Set.x) a : Set` since `Set{x/a} = Set`. -/
theorem C1_end_to_end_amended :
    Rem_W_Empty = ⟨[], []⟩ ∧
    Rem_Ax_Set Rem_W_Empty = ⟨[], [], .set, .type_i 1⟩ ∧
    Rem_IsSort (.type_i 1) = .ok ⟨.type_i 1⟩ ∧
    Rem_Cont_Not_Contain_Var (.str "x") [] = .ok ⟨.str "x", []⟩ ∧
    Rem_W_Local_Assum (Rem_Ax_Set Rem_W_Empty) ⟨.type_i 1⟩ ⟨.str "x", []⟩
      = .ok ⟨[], [.typing (.str "x") .set]⟩ ∧
    Rem_Cont_Contain_Typing (.str "x") .set [.typing (.str "x") .set]
      = .ok ⟨.str "x", .set, [.typing (.str "x") .set]⟩ ∧
    Rem_Var ⟨[], [.typing (.str "x") .set]⟩ ⟨.str "x", .set, [.typing (.str "x") .set]⟩
      = .ok ⟨[], [.typing (.str "x") .set], .var (.str "x"), .set⟩ ∧
    Rem_Prod_Set (Rem_Ax_Set Rem_W_Empty) ⟨.type_i 1⟩
        (Rem_Ax_Set ⟨[], [.typing (.str "x") .set]⟩)
      = .error (.check "s in SProp Prop Set not satisfied") ∧
    (∀ a : Term,
      Rem_App ⟨[], [], .abstract (.str "x") .set (.var (.str "x")),
          .prod (.str "x") .set .set⟩ ⟨[], [], a, .set⟩
        = .ok ⟨[], [], .app (.abstract (.str "x") .set (.var (.str "x"))) a, .set⟩) :=
  ⟨rfl, rfl, rfl, rfl, rfl, rfl, rfl, rfl, fun _ => rfl⟩

/-- C2: a convertible proof built from beta reductions
`(λx:Set.x) Prop ▷ Prop` and `(λy:Prop.y) Prop ▷ Prop` is accepted, but the
conclusion property `t2` of the constructed object is `red1.t2 = Prop`, not
the source term of `red2` as the specification states. -/
theorem C2_convertible_t2 :
    Rem_beta_reduction [] [] (.app (.abstract (.str "x") .set (.var (.str "x"))) .prop)
      = .ok ⟨[], [], .app (.abstract (.str "x") .set (.var (.str "x"))) .prop, .prop⟩ ∧
    Rem_beta_reduction [] [] (.app (.abstract (.str "y") .prop (.var (.str "y"))) .prop)
      = .ok ⟨[], [], .app (.abstract (.str "y") .prop (.var (.str "y"))) .prop, .prop⟩ ∧
    Rem_convertible
        ⟨[], [], .app (.abstract (.str "x") .set (.var (.str "x"))) .prop, .prop⟩
        ⟨[], [], .app (.abstract (.str "y") .prop (.var (.str "y"))) .prop, .prop⟩ none 0
      = .ok ⟨⟨[], [], .app (.abstract (.str "x") .set (.var (.str "x"))) .prop, .prop⟩,
             ⟨[], [], .app (.abstract (.str "y") .prop (.var (.str "y"))) .prop, .prop⟩⟩ ∧
    ConvertibleP.t2
        ⟨⟨[], [], .app (.abstract (.str "x") .set (.var (.str "x"))) .prop, .prop⟩,
         ⟨[], [], .app (.abstract (.str "y") .prop (.var (.str "y"))) .prop, .prop⟩⟩
      = .prop ∧
    (Term.prop == Term.app (.abstract (.str "y") .prop (.var (.str "y"))) .prop) = false :=
  ⟨rfl, rfl, rfl, rfl, rfl⟩

/-- C3: in the final kernel the beta constructor takes no candidate target
and computes `t{x/u}` itself; in the core snapshot, `MP_beta_reduction`
substitutes into the supplied candidate `t2` instead of the lambda body, so
the unrelated target `Set` for the redex `(λx:Set.x) Prop` is accepted even
though `Set` is not alpha-convertible to the true result `Prop`. -/
theorem C3_beta_target_check :
    Rem_beta_reduction [] [] (.app (.abstract (.str "x") .set (.var (.str "x"))) .prop)
      = .ok ⟨[], [], .app (.abstract (.str "x") .set (.var (.str "x"))) .prop, .prop⟩ ∧
    substitute (.var (.str "x")) (.str "x") .prop = .prop ∧
    (alpha_convertible 0 .set .prop).1 = false ∧
    MP_beta_reduction [] [] (.app (.abstract (.str "x") .set (.var (.str "x"))) .prop) .set 0
      = .ok ⟨[], [], .app (.abstract (.str "x") .set (.var (.str "x"))) .prop, .set⟩ :=
  ⟨rfl, rfl, rfl, rfl⟩

/-- C4: the sort gate of Prod-Type tests `isinstance(s, typing.Type)`, which
is constantly false on term objects, so an outer sort `Type(1)` is rejected
even with otherwise consistent premises, while the `SProp` case goes
through. -/
theorem C4_prod_type_sort_gate :
    (∀ s : Term, isinstance_typing_Type s = false) ∧
    Rem_Prod_Type (Rem_Ax_Set Rem_W_Empty) ⟨.type_i 1⟩
        (Rem_Ax_Set ⟨[], [.typing (.str "x") .set]⟩)
      = .error (.check "s in SProp Type(i) not satisfied") ∧
    Rem_Var ⟨[], [.typing (.str "x") .sProp]⟩
        ⟨.str "x", .sProp, [.typing (.str "x") .sProp]⟩
      = .ok ⟨[], [.typing (.str "x") .sProp], .var (.str "x"), .sProp⟩ ∧
    Rem_Prod_Type ⟨[], [.typing (.str "x") .sProp], .var (.str "x"), .sProp⟩ ⟨.sProp⟩
        (Rem_Ax_Set ⟨[], [.typing (.str "x") .sProp,
            .typing (.str "y") (.var (.str "x"))]⟩)
      = .ok ⟨[], [.typing (.str "x") .sProp],
          .prod (.str "y") (.var (.str "x")) .set, .type_i 1⟩ :=
  ⟨fun _ => rfl, rfl, rfl, rfl⟩

/-- C5: well-formedness and containment premises over the same context are
constructible, yet the delta-reduction constructor always raises its `Gamma`
inconsistency error, because it compares the context with the containment
proof object itself. -/
theorem C5_delta_reduction_fails :
    Rem_W_Local_Def (Rem_Ax_Set Rem_W_Empty) ⟨.str "x", []⟩
      = .ok ⟨[], [.defn (.str "x") .set (.type_i 1)]⟩ ∧
    Rem_Cont_Contain_Def (.str "x") .set (.type_i 1) [.defn (.str "x") .set (.type_i 1)]
      = .ok ⟨.str "x", .set, .type_i 1, [.defn (.str "x") .set (.type_i 1)]⟩ ∧
    (∀ (wf : Rem_WF) (x_in_Gamma : ContainDefP),
      Rem_delta_reduction wf x_in_Gamma = .error (.inconsistent "Gamma")) :=
  ⟨rfl, rfl, fun _ _ => rfl⟩

/-- C6: the subtype-universe constructor succeeds exactly on `0 < i ≤ j`, and
the proofs of `Type(1) ≤ Type(2)` and `Type(2) ≤ Type(3)` are constructible;
but composing them through `Rem_subtyping_trans` raises the abstract
instantiation error instead of yielding `Type(1) ≤ Type(3)`. -/
theorem C6_subtype_universe_trans :
    (∀ (E : Environment) (Gamma : Context) (i j : Int),
      is_ok (Rem_subtyping_universe E Gamma i j) = decide (0 < i ∧ i ≤ j)) ∧
    Rem_subtyping_universe [] [] 1 2 = .ok ⟨[], [], .type_i 1, .type_i 2⟩ ∧
    Rem_subtyping_universe [] [] 2 3 = .ok ⟨[], [], .type_i 2, .type_i 3⟩ ∧
    Rem_subtyping_trans ⟨[], [], .type_i 1, .type_i 2⟩ ⟨[], [], .type_i 2, .type_i 3⟩
      = .error .cannotInstantiateAbstract := by
  refine ⟨?_, rfl, rfl, rfl⟩
  intro E Gamma i j
  by_cases h : (0 < i ∧ i ≤ j)
  · rw [Rem_subtyping_universe, if_pos h]
    simp [is_ok, h]
  · rw [Rem_subtyping_universe, if_neg h]
    simp [is_ok, h]

/-- C7: Prod and Abstract compare both renamed children, and indeed a lambda
is alpha-convertible to its `replace_bound` image; but the Let_in case
recurses on the original body `self.u`, so a Let_in whose body mentions the
bound variable is not recognised as alpha-convertible to its own
`replace_bound` image, against the claim. -/
theorem C7_letin_alpha :
    replace_bound (.letIn (.str "x") .set .set (.var (.str "x"))) (.str "y")
      = .letIn (.str "y") .set .set (.var (.str "y")) ∧
    (alpha_convertible 0 (.abstract (.str "x") .set (.var (.str "x")))
        (replace_bound (.abstract (.str "x") .set (.var (.str "x"))) (.str "y"))).1
      = true ∧
    (alpha_convertible 0 (.letIn (.str "x") .set .set (.var (.str "x")))
        (replace_bound (.letIn (.str "x") .set .set (.var (.str "x"))) (.str "y"))).1
      = false :=
  ⟨rfl, rfl, rfl⟩

/-- C8: for every finite tuple of terms and every counter state, the variable
returned by `fresh_var` is not an element of the union of `all_var` over the
terms. -/
theorem C8_fresh_var_fresh (ts : List Term) (count : Nat) :
    (fresh_var ts count).1 ∉ all_var_union ts := by
  show Name.hash (probe (all_var_union ts) ((all_var_union ts).length + 1) count)
      ∉ all_var_union ts
  exact probe_not_mem _ _ _ (probe_exists_not_mem _ count)

/-- Witness for C8: the theorem applied at the empty tuple and counter 0. -/
theorem C8_fresh_var_fresh_witness : (fresh_var [] 0).1 ∉ all_var_union [] :=
  C8_fresh_var_fresh [] 0

/-- C9: substituting `s` for `z` in `Abstract(x, T, u)` returns the product
node `Prod(x, T{z/s}, u{z/s})` whenever `z` differs from the bound variable,
and the unchanged abstraction when `z = x`. -/
theorem C9_abstract_substitute (x z : Name) (T u s : Term) :
    (z ≠ x → substitute (.abstract x T u) z s
        = .prod x (substitute T z s) (substitute u z s)) ∧
    (z = x → substitute (.abstract x T u) z s = .abstract x T u) := by
  constructor
  · intro h
    simp [substitute, h]
  · intro h
    subst h
    simp [substitute]

/-- Witness for C9: both branches at concrete terms. -/
theorem C9_abstract_substitute_witness :
    substitute (.abstract (.str "x") .set (.var (.str "x"))) (.str "z") .prop
      = .prod (.str "x") .set (.var (.str "x")) ∧
    substitute (.abstract (.str "x") .set (.var (.str "x"))) (.str "x") .prop
      = .abstract (.str "x") .set (.var (.str "x")) :=
  ⟨(C9_abstract_substitute (.str "x") (.str "z") .set (.var (.str "x")) .prop).1
      (by decide),
   (C9_abstract_substitute (.str "x") (.str "x") .set (.var (.str "x")) .prop).2 rfl⟩

/-- C10: `fresh_var` returns the name indexed by the final counter value,
advances the counter only across colliding indices, and in particular two
successive calls on the empty tuple starting from counter 0 both return the
variable `#0`. -/
theorem C10_fresh_var_counter :
    (∀ (ts : List Term) (count : Nat),
        (fresh_var ts count).1 = Name.hash (fresh_var ts count).2 ∧
        count ≤ (fresh_var ts count).2 ∧
        (∀ k, count ≤ k → k < (fresh_var ts count).2 →
          Name.hash k ∈ all_var_union ts)) ∧
    fresh_var [] 0 = (Name.hash 0, 0) ∧
    fresh_var [] (fresh_var [] 0).2 = fresh_var [] 0 := by
  refine ⟨?_, rfl, rfl⟩
  intro ts count
  refine ⟨rfl, probe_ge _ _ _, ?_⟩
  intro k h1 h2
  exact probe_mem_of_lt _ _ _ _ h1 h2

/-- Witness for C10: with the tuple containing the variable `#0` and counter
0, the skipped index 0 indeed collides. -/
theorem C10_fresh_var_counter_witness :
    Name.hash 0 ∈ all_var_union [Term.var (Name.hash 0)] :=
  (C10_fresh_var_counter.1 [Term.var (Name.hash 0)] 0).2.2 0 (by decide) (by decide)
